import Mathlib

/-!
Verification of the parodus2rbus protocol-translation gateway against its
natural-language specification.  The definitions below are a shallow
embedding of the C sources: the protocol translator (protocol.c), the
parambus adapter (rbus_adapter.c), the parameter cache (cache.c), the
webconfig transaction engine (webconfig.c), the authorization hook
(auth.c) and the webpa egress shaping (parodus_iface.c).  Machine
integers are modelled as Int or Nat; fallible bus calls are modelled by
oracle functions returning Except or error codes, quantified over in the
theorems.
-/

namespace P2R

/-! ## A minimal JSON model (cJSON values as used by the sources) -/

inductive Json where
  | null : Json
  | jbool : Bool → Json
  | num : Int → Json
  | str : String → Json
  | arr : List Json → Json
  | obj : List (String × Json) → Json

/-- Field lookup on an object, first match wins (cJSON GetObjectItem). -/
def jget : Json → String → Option Json
  | .obj fields, k => fields.lookup k
  | _, _ => none

def Json.isObj : Json → Bool
  | .obj _ => true
  | _ => false

def Json.isNull : Json → Bool
  | .null => true
  | _ => false


/-- The character test p[plen-1] == c of the C sources, on the string
character data (false for the empty string). -/
def ends_with_char (s : String) (c : Char) : Bool :=
  match s.data.getLast? with
  | some d => d == c
  | none => false

/-- Whether the string contains the character. -/
def contains_char (s : String) (c : Char) : Bool :=
  s.data.contains c

/-- The dot character. -/
def dotChar : Char := Char.ofNat 46

/-- The star character. -/
def starChar : Char := Char.ofNat 42

/-! ## protocol.c : operation parsing and response builders -/

inductive OperationType where
  | opUnknown | opGet | opSet | opGetAttributes | opSetAttributes
  | opAddRow | opDeleteRow | opReplaceRows | opSubscribe | opUnsubscribe
deriving Repr, DecidableEq

/-- parse_operation_type from protocol.c; a null pointer is None. -/
def parse_operation_type : Option String → OperationType
  | none => .opUnknown
  | some s =>
    if s = "GET" then .opGet
    else if s = "SET" then .opSet
    else if s = "GET_ATTRIBUTES" then .opGetAttributes
    else if s = "SET_ATTRIBUTES" then .opSetAttributes
    else if s = "ADD_ROW" then .opAddRow
    else if s = "DELETE_ROW" then .opDeleteRow
    else if s = "REPLACE_ROWS" then .opReplaceRows
    else if s = "SUBSCRIBE" then .opSubscribe
    else if s = "UNSUBSCRIBE" then .opUnsubscribe
    else .opUnknown

/-- map_status from protocol.c (the enhanced error table). -/
def map_status (code : Int) : Int :=
  if code = 0 then 200
  else if code = -1 then 400
  else if code = -2 then 404
  else if code = -3 then 403
  else if code = -4 then 409
  else if code = -5 then 422
  else if code = -6 then 408
  else if code = -7 then 507
  else if code = -8 then 503
  else if code = -9 then 501
  else if code = -10 then 412
  else if code = -11 then 423
  else if code = -12 then 429
  else if code = -13 then 413
  else if code = -14 then 414
  else if code = -15 then 415
  else if code < 0 then 500
  else code

def protocol_build_set_response (id : Option String) (status : Int)
    (message : Option String) : Json :=
  .obj ((match id with | some s => [("id", Json.str s)] | none => []) ++
        [("status", Json.num status)] ++
        (match message with | some m => [("message", Json.str m)] | none => []))

def protocol_build_get_response (id : Option String) (status : Int)
    (results : List (String × Json)) : Json :=
  .obj ((match id with | some s => [("id", Json.str s)] | none => []) ++
        [("status", Json.num status), ("results", Json.obj results)])

def protocol_build_table_response (id : Option String) (status : Int)
    (newRowName : Option String) : Json :=
  .obj ((match id with | some s => [("id", Json.str s)] | none => []) ++
        [("status", Json.num status)] ++
        (match newRowName with | some n => [("newRowName", Json.str n)] | none => []))

def protocol_build_attributes_response (id : Option String) (status : Int)
    (attributes : Json) : Json :=
  .obj ((match id with | some s => [("id", Json.str s)] | none => []) ++
        [("status", Json.num status), ("attributes", attributes)])

/-! ## The parambus adapter boundary as seen by the translator.

The translator calls the adapter (rbus_adapter_get_typed,
rbus_adapter_expand_wildcard, rbus_adapter_set, attribute and table
operations, subscribe and unsubscribe).  Each is modelled by an oracle
field; an error value is the nonzero return code of the C function. -/

structure Adapter where
  getTyped : String → Except Int (String × Int)
  expand : String → Except Int (List String)
  setRc : String → String → Int
  getAttrsRes : String → Except Int (Int × Option String)
  setAttrsRc : String → Int
  addRowRes : String → Except Int String
  deleteRowRc : String → Int
  replaceRc : String → Int
  subRc : String → Int
  unsubRc : String → Int

/-- The observable operations the translator performs while handling one
request.  authCheck is included to express claims about the (absent)
authorization middleware. -/
inductive Event where
  | busGet (name : String)
  | busExpand (pfx : String)
  | busSet (name value : String)
  | busGetAttrs (name : String)
  | busSetAttrs (name : String)
  | busAddRow (table : String)
  | busDeleteRow (row : String)
  | busReplaceRows (table : String)
  | busSubscribe (event : String)
  | busUnsubscribe (event : String)
  | authCheck (resource : String)
deriving Repr, DecidableEq

/-- The inner loop of the GET wildcard branch: one get_typed per expanded
child; a failing child adds a null result and one failure. -/
def wildcardChildren (bus : Adapter) : List String → List (String × Json) × Nat × List Event
  | [] => ([], 0, [])
  | nm :: rest =>
    let r := wildcardChildren bus rest
    match bus.getTyped nm with
    | .ok (v, t) =>
      ((nm, Json.obj [("v", Json.str v), ("t", Json.num t)]) :: r.1, r.2.1,
        Event.busGet nm :: r.2.2)
    | .error _ => ((nm, Json.null) :: r.1, r.2.1 + 1, Event.busGet nm :: r.2.2)

/-- One entry of the GET params array (protocol.c OP_GET loop body). -/
def processGetEntry (bus : Adapter) (idx : Nat) (entry : Json) :
    List (String × Json) × Nat × List Event :=
  match entry with
  | .str p =>
    if ends_with_char p dotChar then
      match bus.expand p with
      | .ok lst =>
        if lst.isEmpty then ([(p, Json.null)], 1, [Event.busExpand p])
        else
          let r := wildcardChildren bus lst
          (r.1, r.2.1, Event.busExpand p :: r.2.2)
      | .error _ => ([(p, Json.null)], 1, [Event.busExpand p])
    else
      match bus.getTyped p with
      | .ok (v, t) =>
        ([(p, Json.obj [("v", Json.str v), ("t", Json.num t)])], 0, [Event.busGet p])
      | .error _ => ([(p, Json.null)], 1, [Event.busGet p])
  | _ => ([("_" ++ toString idx, Json.null)], 1, [])

/-- The full GET dispatch over the params array, accumulating the results
object, the failure counter and the bus operations. -/
def getDispatchAux (bus : Adapter) (idx : Nat) : List Json → List (String × Json) × Nat × List Event
  | [] => ([], 0, [])
  | e :: rest =>
    let r := processGetEntry bus idx e
    let rs := getDispatchAux bus (idx + 1) rest
    (r.1 ++ rs.1, r.2.1 + rs.2.1, r.2.2 ++ rs.2.2)

/-- protocol_handle_request from protocol.c, returning the response JSON
and the trace of adapter operations performed. -/
def protocol_handle_request (bus : Adapter) (root : Option Json) : Json × List Event :=
  match root with
  | none => (protocol_build_set_response none 400 (some "invalid json"), [])
  | some r =>
    if ¬ r.isObj then (protocol_build_set_response none 400 (some "invalid json"), [])
    else
      let idStr : Option String :=
        match jget r "id" with
        | some (.str s) => some s
        | _ => none
      match jget r "op" with
      | some (.str opStr) =>
        match parse_operation_type (some opStr) with
        | .opGet =>
          match jget r "params" with
          | some (.arr entries) =>
            let d := getDispatchAux bus 0 entries
            let status : Int := if d.2.1 = 0 then 200 else 207
            (protocol_build_get_response idStr status d.1, d.2.2)
          | _ => (protocol_build_set_response idStr 400 (some "params array required"), [])
        | .opSet =>
          match jget r "param", jget r "value" with
          | some (.str p), some (.str v) =>
            let rc := bus.setRc p v
            (protocol_build_set_response idStr (map_status rc)
              (some (if rc = 0 then "OK" else "error")), [Event.busSet p v])
          | _, _ => (protocol_build_set_response idStr 400 (some "param+value required"), [])
        | .opGetAttributes =>
          match jget r "param" with
          | some (.str p) =>
            match bus.getAttrsRes p with
            | .ok (notify, access) =>
              let attrObj := Json.obj ([("notify", Json.num notify)] ++
                (match access with | some a => [("access", Json.str a)] | none => []))
              (protocol_build_attributes_response idStr 200 attrObj, [Event.busGetAttrs p])
            | .error rc =>
              (protocol_build_set_response idStr (map_status rc)
                (some "get attributes failed"), [Event.busGetAttrs p])
          | _ => (protocol_build_set_response idStr 400 (some "param required"), [])
        | .opSetAttributes =>
          match jget r "param", jget r "attributes" with
          | some (.str p), some (.obj _) =>
            let rc := bus.setAttrsRc p
            (protocol_build_set_response idStr (map_status rc)
              (some (if rc = 0 then "OK" else "set attributes failed")), [Event.busSetAttrs p])
          | _, _ =>
            (protocol_build_set_response idStr 400 (some "param+attributes required"), [])
        | .opAddRow =>
          match jget r "tableName", jget r "rowData" with
          | some (.str t), some (.arr _) =>
            match bus.addRowRes t with
            | .ok newRow =>
              (protocol_build_table_response idStr 200 (some newRow), [Event.busAddRow t])
            | .error rc =>
              (protocol_build_set_response idStr (map_status rc)
                (some "add row failed"), [Event.busAddRow t])
          | _, _ =>
            (protocol_build_set_response idStr 400 (some "tableName+rowData required"), [])
        | .opDeleteRow =>
          match jget r "rowName" with
          | some (.str row) =>
            let rc := bus.deleteRowRc row
            (protocol_build_set_response idStr (map_status rc)
              (some (if rc = 0 then "OK" else "delete row failed")), [Event.busDeleteRow row])
          | _ => (protocol_build_set_response idStr 400 (some "rowName required"), [])
        | .opReplaceRows =>
          match jget r "tableName", jget r "tableData" with
          | some (.str t), some (.arr _) =>
            let rc := bus.replaceRc t
            (protocol_build_set_response idStr (map_status rc)
              (some (if rc = 0 then "OK" else "replace rows failed")), [Event.busReplaceRows t])
          | _, _ =>
            (protocol_build_set_response idStr 400 (some "tableName+tableData required"), [])
        | .opSubscribe =>
          match jget r "event" with
          | some (.str e) =>
            let rc := bus.subRc e
            (protocol_build_set_response idStr (if rc = 0 then 200 else 500)
              (some (if rc = 0 then "subscribed" else "subscribe failed")), [Event.busSubscribe e])
          | _ => (protocol_build_set_response idStr 400 (some "event required"), [])
        | .opUnsubscribe =>
          match jget r "event" with
          | some (.str e) =>
            let rc := bus.unsubRc e
            (protocol_build_set_response idStr (if rc = 0 then 200 else 500)
              (some (if rc = 0 then "unsubscribed" else "unsubscribe failed")), [Event.busUnsubscribe e])
          | _ => (protocol_build_set_response idStr 400 (some "event required"), [])
        | .opUnknown =>
          (protocol_build_set_response idStr 400 (some "unsupported op"), [])
      | _ => (protocol_build_set_response idStr 400 (some "missing op"), [])

/-- A result entry rendered as null (a failed sub-operation). -/
def isNullKV (kv : String × Json) : Bool :=
  match kv.2 with
  | Json.null => true
  | _ => false

/-- Number of successful sub-results in a GET results object. -/
def resultSuccesses (results : List (String × Json)) : Nat :=
  results.countP (fun kv => ! isNullKV kv)

/-- Number of failed (null) sub-results in a GET results object. -/
def resultFailures (results : List (String × Json)) : Nat :=
  results.countP isNullKV

/-! ## cache.c : the parameter cache.

The hash table is modelled by the list of its entries in iteration order
(buckets in index order, each chain from head to tail); keys are unique
by the cache invariant.  A newly inserted entry is placed at the head of
its bucket; its exact position in the global iteration order depends on
the hash, which no claim observes, so the model places it at the front. -/

structure CEntry where
  key : String
  value : String
  dataType : Int
  timestamp : Int
  ttl : Int
  access_count : Nat
deriving Repr, DecidableEq

structure CacheStats where
  cache_hits : Nat
  cache_misses : Nat
  cache_evictions : Nat
  cache_timeouts : Nat
deriving Repr, DecidableEq

structure CacheConfig where
  max_entries : Nat
  default_ttl : Int
  enable_stats : Bool
deriving Repr, DecidableEq

/-- cache_entry_expired: expired iff ttl is positive and age exceeds it. -/
def cache_entry_expired (now : Int) (e : CEntry) : Bool :=
  if e.ttl ≤ 0 then false else decide (now - e.timestamp > e.ttl)

/-- First entry with the given key, in iteration order. -/
def cache_find (es : List CEntry) (k : String) : Option CEntry :=
  es.find? (fun e => e.key = k)

/-- Remove the first entry with the given key (the one the C code found
and unlinks from its bucket chain). -/
def cache_remove_first : List CEntry → String → List CEntry
  | [], _ => []
  | e :: rest, k => if e.key = k then rest else e :: cache_remove_first rest k

/-- Increment the access counter of the first entry with the given key. -/
def cache_bump_access : List CEntry → String → List CEntry
  | [], _ => []
  | e :: rest, k =>
    if e.key = k then { e with access_count := e.access_count + 1 } :: rest
    else e :: cache_bump_access rest k

/-- Overwrite the first entry with the given key (the update branch of
cache_set: new value, dataType, timestamp and ttl, position preserved). -/
def cache_update_first (now : Int) (cfg : CacheConfig) : List CEntry → String → String → Int → Int → List CEntry
  | [], _, _, _, _ => []
  | e :: rest, k, v, dt, ttl =>
    if e.key = k then
      { e with value := v, dataType := dt, timestamp := now,
               ttl := if ttl > 0 then ttl else cfg.default_ttl } :: rest
    else e :: cache_update_first now cfg rest k v dt ttl

/-- cache_delete: remove the first matching entry; -1 when absent. -/
def cache_delete (es : List CEntry) (k : String) : List CEntry × Int :=
  if (cache_find es k).isSome then (cache_remove_first es k, 0) else (es, -1)

/-- cache_get: first match in the bucket chain decides; a present but
expired entry is unlinked and counted (under enable_stats) as a timeout
and a miss; a fresh entry is a hit and bumps its access counter. -/
def cache_get (now : Int) (cfg : CacheConfig) (es : List CEntry) (stats : CacheStats)
    (key : String) : Option (String × Int) × List CEntry × CacheStats :=
  match cache_find es key with
  | some e =>
    if cache_entry_expired now e then
      let stats1 := if cfg.enable_stats then
        { stats with cache_timeouts := stats.cache_timeouts + 1 } else stats
      let stats2 := if cfg.enable_stats then
        { stats1 with cache_misses := stats1.cache_misses + 1 } else stats1
      (none, cache_remove_first es key, stats2)
    else
      let statsH := if cfg.enable_stats then
        { stats with cache_hits := stats.cache_hits + 1 } else stats
      (some (e.value, e.dataType), cache_bump_access es key, statsH)
  | none =>
    let statsM := if cfg.enable_stats then
      { stats with cache_misses := stats.cache_misses + 1 } else stats
    (none, es, statsM)

/-- Eviction priority from cache_evict_lru: access count plus age in
minutes; lower is evicted first. -/
def evictionPriority (now : Int) (e : CEntry) : Int :=
  (e.access_count : Int) + (now - e.timestamp) / 60

def insertByPriority (now : Int) (e : CEntry) : List CEntry → List CEntry
  | [] => [e]
  | c :: rest =>
    if evictionPriority now e ≤ evictionPriority now c then e :: c :: rest
    else c :: insertByPriority now e rest

/-- The candidate sort of cache_evict_lru (ascending by priority). -/
def sortCandidates (now : Int) : List CEntry → List CEntry
  | [] => []
  | e :: rest => insertByPriority now e (sortCandidates now rest)

/-- cache_evict_lru: the candidate collection loop stops as soon as
max_evictions entries have been seen, so the candidates are the first
max_evictions entries in iteration order; the sort orders only the
removal sequence, and every candidate is then unlinked and freed. -/
def cache_evict_lru (now : Int) (es : List CEntry) (maxEv : Nat) : List CEntry × Nat :=
  if maxEv = 0 then (es, 0)
  else
    let cand := es.take maxEv
    let sorted := sortCandidates now cand
    let rem := es.filter (fun e => ! sorted.any (fun c => c.key = e.key))
    (rem, sorted.length)

/-- cache_set: overwrite in place when the key exists; otherwise, at
capacity, evict max_entries / 10 entries first, then insert. -/
def cache_set (now : Int) (cfg : CacheConfig) (es : List CEntry) (stats : CacheStats)
    (key value : String) (dataType : Int) (ttl : Int) : List CEntry × CacheStats :=
  if (cache_find es key).isSome then
    (cache_update_first now cfg es key value dataType ttl, stats)
  else
    let step :=
      if cfg.max_entries ≤ es.length then
        let r := cache_evict_lru now es (cfg.max_entries / 10)
        (r.1, { stats with cache_evictions := stats.cache_evictions + r.2 })
      else (es, stats)
    let newE : CEntry :=
      { key := key, value := value, dataType := dataType, timestamp := now,
        ttl := if ttl > 0 then ttl else cfg.default_ttl, access_count := 0 }
    (newE :: step.1, step.2)

/-- The ceiling of n / 10, as the specification writes it. -/
def ceil_div10 (n : Nat) : Nat := (n + 9) / 10

/-! ## rbus_adapter.c : raw bus plus the adapter set and compare-and-set -/

/-- The raw parambus as used directly by the adapter: rbus_get composed
with rbusValue_ToString, and rbus_set; an error value is the positive
rbus error code. -/
structure Rbus where
  get : String → Except Int String
  set : String → String → Int

/-- rbus_adapter_set: on bus success the cache entry of the parameter is
invalidated (cache_delete) before returning 0; on bus failure the cache
is untouched and -2 is returned. -/
def rbus_adapter_set (rb : Rbus) (cache : List CEntry) (param value : String) :
    Int × List CEntry :=
  if rb.set param value ≠ 0 then (-2, cache)
  else (0, (cache_delete cache param).1)

structure TestAndSetReq where
  param : String
  oldValue : String
  newValue : String
  dataType : Int

/-- rbus_adapter_test_and_set: read the current value, compare it to
oldValue under the string encoding, set iff equal; a mismatch returns
-10 (precondition failed) with no set performed; bus errors are offset
by 100.  The per-dataType value construction only shapes the bus value
and is absorbed into the set call. -/
def rbus_adapter_test_and_set (rb : Rbus) (tas : TestAndSetReq) : Int × List Event :=
  match rb.get tas.param with
  | .error rbusRc => (-(rbusRc + 100), [Event.busGet tas.param])
  | .ok currentStr =>
    if currentStr ≠ tas.oldValue then (-10, [Event.busGet tas.param])
    else
      let rc := rb.set tas.param tas.newValue
      if rc = 0 then (0, [Event.busGet tas.param, Event.busSet tas.param tas.newValue])
      else (-(rc + 100), [Event.busGet tas.param, Event.busSet tas.param tas.newValue])

/-! ## rbus_adapter.c : subscription state.

The adapter keeps one global integer g_sub_count; the bus-side state is
the multiset of registrations this process holds, in order.  busOk is
the outcome of the underlying rbusEvent call. -/

structure SubState where
  busSubs : List String
  g_sub_count : Nat
deriving Repr, DecidableEq

def rbus_adapter_subscribe (busOk : Bool) (st : SubState) (e : String) : Int × SubState :=
  if busOk then
    (0, { busSubs := st.busSubs ++ [e], g_sub_count := st.g_sub_count + 1 })
  else (-2, st)

def rbus_adapter_unsubscribe (busOk : Bool) (st : SubState) (e : String) : Int × SubState :=
  if busOk then
    (0, { busSubs := st.busSubs.erase e,
          g_sub_count := if st.g_sub_count > 0 then st.g_sub_count - 1 else st.g_sub_count })
  else (-2, st)

inductive SubOp where
  | sub (e : String) (busOk : Bool)
  | unsub (e : String) (busOk : Bool)
deriving Repr, DecidableEq

def runSubOps : SubState → List SubOp → SubState
  | st, [] => st
  | st, SubOp.sub e ok :: rest => runSubOps (rbus_adapter_subscribe ok st e).2 rest
  | st, SubOp.unsub e ok :: rest => runSubOps (rbus_adapter_unsubscribe ok st e).2 rest

/-- A run is well behaved when every unsubscribe the bus accepted was for
a name this process had subscribed (the bus rejects unknown
unsubscribes). -/
def wellBehavedOps : SubState → List SubOp → Bool
  | _, [] => true
  | st, SubOp.sub e ok :: rest => wellBehavedOps (rbus_adapter_subscribe ok st e).2 rest
  | st, SubOp.unsub e ok :: rest =>
    (! ok || st.busSubs.contains e) &&
      wellBehavedOps (rbus_adapter_unsubscribe ok st e).2 rest

/-! ## webconfig.c : the transaction engine.

outcomes lists, in order, whether execute_parameter_operation reported
success for each parameter.  The apply loop stops at the first failure
when the transaction is atomic (the rollback is performed there and the
overall status is assigned Failure); the classification block that
follows the loop then recomputes the overall status from the counters
unconditionally, overwriting that assignment. -/

inductive WebconfigStatus where
  | pending | success | failure | partialStatus | timeout
deriving Repr, DecidableEq

/-- The apply loop of webconfig_execute_transaction: returns the final
success and failure counters. -/
def webconfig_apply_loop (atomic : Bool) : List Bool → Nat × Nat
  | [] => (0, 0)
  | ok :: rest =>
    if ok then
      let r := webconfig_apply_loop atomic rest
      (r.1 + 1, r.2)
    else
      if atomic then (0, 1)
      else
        let r := webconfig_apply_loop atomic rest
        (r.1, r.2 + 1)

/-- The classification block that runs after the loop. -/
def webconfig_classify (s f : Nat) : WebconfigStatus :=
  if f = 0 then .success else if s = 0 then .failure else .partialStatus

/-- Overall status of webconfig_execute_transaction as the code computes
it: counters from the (possibly aborted) apply loop, then the
unconditional classification. -/
def webconfig_execute_transaction (atomic : Bool) (outcomes : List Bool) : WebconfigStatus :=
  let sf := webconfig_apply_loop atomic outcomes
  webconfig_classify sf.1 sf.2

/-! ## auth.c : the ACL check -/

structure AuthAclEntry where
  resource_pattern : String
  required_permission : Nat
  minimum_role : Nat
  require_authentication : Bool
deriving Repr, DecidableEq

structure AuthContext where
  authenticated : Bool
  role : Nat
  permissions : Nat
deriving Repr, DecidableEq

/-- ACL pattern match: a trailing star matches by prefix, otherwise the
resource must equal the pattern. -/
def acl_pattern_matches (pat resource : String) : Bool :=
  if ends_with_char pat starChar then
    resource.data.take (pat.data.length - 1) == pat.data.dropLast
  else resource == pat

/-- auth_check_permission: unauthenticated contexts are denied; otherwise
every bit of the required permission mask must be held. -/
def auth_check_permission (ctx : AuthContext) (required : Nat) : Int :=
  if ! ctx.authenticated then 0
  else if ctx.permissions &&& required ≠ required then 0
  else 1

/-- auth_check_acl: the first matching rule wins; a match enforces its
authentication requirement, minimum role and permission mask; with no
matching rule, unauthenticated contexts are denied and authenticated
ones admitted. -/
def auth_check_acl (acl : List AuthAclEntry) (resource : String) (ctx : AuthContext) : Int :=
  match acl.find? (fun e => acl_pattern_matches e.resource_pattern resource) with
  | some entry =>
    if entry.require_authentication && ! ctx.authenticated then 0
    else if ctx.role < entry.minimum_role then 0
    else auth_check_permission ctx entry.required_permission
  | none => if ! ctx.authenticated then 0 else 1

/-! ## parodus_iface.c : webpa egress shaping -/

/-- is_wildcard_query_present: some params entry is a string with a
trailing dot or containing a star. -/
def is_wildcard_query_present (originalRoot : Option Json) : Bool :=
  match originalRoot with
  | some r =>
    match jget r "params" with
    | some (.arr entries) =>
      entries.any (fun e =>
        match e with
        | .str s => ends_with_char s dotChar || contains_char s starChar
        | _ => false)
    | _ => false
  | none => false

/-- The trailing-dot wildcard entries of the params array, in order
(the entries the name-concatenation loop collects). -/
def wildcard_prefixes (entries : List Json) : List String :=
  entries.filterMap (fun e =>
    match e with
    | .str s => if ends_with_char s dotChar then some s else none
    | _ => none)

/-- The grouped name: comma-joined trailing-dot prefixes, or the literal
fallback when none were collected. -/
def wildcard_name (originalRoot : Option Json) : String :=
  let ps :=
    match originalRoot with
    | some r =>
      match jget r "params" with
      | some (.arr entries) => wildcard_prefixes entries
      | _ => []
    | none => []
  if ps.isEmpty then "wildcard" else String.intercalate "," ps

/-- Per-child value and dataType extraction of the conversion loop. -/
def webpa_child_value : Json → String × Int
  | .obj fields =>
    (match jget (Json.obj fields) "v" with | some (.str s) => s | _ => "",
     match jget (Json.obj fields) "t" with | some (.num n) => n | _ => 0)
  | .str s => (s, 0)
  | .num n => (toString n, 0)
  | .jbool b => (if b then "true" else "false", 3)
  | _ => ("", 0)

/-- One element of the value array (or of the flat parameters array). -/
def webpa_child_item (kv : String × Json) : Json :=
  Json.obj [("name", Json.str kv.1),
            ("value", Json.str (webpa_child_value kv.2).1),
            ("dataType", Json.num (webpa_child_value kv.2).2)]

/-- convert_internal_to_webpa_ext: reshape an internal response for the
webpa dialect; grouped mode when the original request had a wildcard. -/
def convert_internal_to_webpa_ext (inResp : Json) (originalRequest : Option Json) : Json :=
  match jget inResp "status" with
  | some (.num status) =>
    let wildcardMode := is_wildcard_query_present originalRequest
    match jget inResp "results" with
    | some (.obj rs) =>
      if wildcardMode then
        let grouped := Json.obj
          [("name", Json.str (wildcard_name originalRequest)),
           ("value", Json.arr (rs.map webpa_child_item)),
           ("parameterCount", Json.num rs.length),
           ("message", Json.str (if status = 200 ∨ status = 207 then "Success" else "Failure")),
           ("dataType", Json.num 11)]
        Json.obj [("statusCode", Json.num status), ("parameters", Json.arr [grouped])]
      else
        Json.obj [("statusCode", Json.num status),
                  ("parameters", Json.arr (rs.map webpa_child_item)),
                  ("message", Json.str (if status = 200 ∨ status = 207 then "Success" else "Failure"))]
    | _ =>
      match jget inResp "message" with
      | some (.str m) =>
        Json.obj [("statusCode", Json.num status),
                  ("parameters", Json.arr [Json.obj
                    [("name", Json.str "result"), ("value", Json.str m),
                     ("dataType", Json.num 0)]]),
                  ("message", Json.str (if status = 200 then "Success" else "Failure"))]
      | _ => Json.obj [("statusCode", Json.num status), ("parameters", Json.arr [])]
  | _ => inResp

/-! ## Shared concrete oracles used by witnesses and counterexamples -/

/-- An adapter whose get operations succeed with value "1" of type 1 and
whose other operations succeed trivially; wildcard expansion fails. -/
def adapterOkAll : Adapter :=
  { getTyped := fun _ => .ok ("1", 1)
  , expand := fun _ => .error (-3)
  , setRc := fun _ _ => 0
  , getAttrsRes := fun _ => .error (-2)
  , setAttrsRc := fun _ => 0
  , addRowRes := fun _ => .error (-2)
  , deleteRowRc := fun _ => 0
  , replaceRc := fun _ => 0
  , subRc := fun _ => 0
  , unsubRc := fun _ => 0 }

/-- An adapter where every typed get fails and the wildcard Device.W.
expands to two children. -/
def adapterExpandTwo : Adapter :=
  { getTyped := fun _ => .error (-2)
  , expand := fun p => if p = "Device.W." then .ok ["Device.W.A", "Device.W.B"] else .error (-3)
  , setRc := fun _ _ => 0
  , getAttrsRes := fun _ => .error (-2)
  , setAttrsRc := fun _ => 0
  , addRowRes := fun _ => .error (-2)
  , deleteRowRc := fun _ => 0
  , replaceRc := fun _ => 0
  , subRc := fun _ => 0
  , unsubRc := fun _ => 0 }

/-! ## List counting helpers -/

theorem countP_not_add_countP (l : List α) (p : α → Bool) :
    l.countP (fun a => ! p a) + l.countP p = l.length := by
  induction l with
  | nil => simp
  | cons a t ih =>
    by_cases h : p a = true <;>
      simp [List.countP_cons, h, ← ih] <;> omega

theorem wildcardChildren_failures (bus : Adapter) (ns : List String) :
    ((wildcardChildren bus ns).1).countP isNullKV = (wildcardChildren bus ns).2.1 := by
  induction ns with
  | nil => simp [wildcardChildren]
  | cons nm rest ih =>
    simp only [wildcardChildren]
    cases h : bus.getTyped nm with
    | ok vt =>
      obtain ⟨v, t⟩ := vt
      simp [List.countP_cons, isNullKV, ih]
    | error e =>
      simp [List.countP_cons, isNullKV, ih]

theorem processGetEntry_failures (bus : Adapter) (idx : Nat) (entry : Json) :
    ((processGetEntry bus idx entry).1).countP isNullKV = (processGetEntry bus idx entry).2.1 := by
  cases entry with
  | str p =>
    simp only [processGetEntry]
    by_cases hdot : ends_with_char p dotChar = true
    · simp only [hdot, if_true]
      cases h : bus.expand p with
      | ok lst =>
        by_cases hl : lst.isEmpty
        · simp [hl, List.countP_cons, isNullKV]
        · simp [hl, wildcardChildren_failures]
      | error e => simp [List.countP_cons, isNullKV]
    · simp only [hdot, if_false]
      cases h : bus.getTyped p with
      | ok vt =>
        obtain ⟨v, t⟩ := vt
        simp [List.countP_cons, isNullKV]
      | error e => simp [List.countP_cons, isNullKV]
  | null => simp [processGetEntry, List.countP_cons, isNullKV]
  | jbool b => simp [processGetEntry, List.countP_cons, isNullKV]
  | num n => simp [processGetEntry, List.countP_cons, isNullKV]
  | arr xs => simp [processGetEntry, List.countP_cons, isNullKV]
  | obj fs => simp [processGetEntry, List.countP_cons, isNullKV]

theorem getDispatchAux_failures (bus : Adapter) (idx : Nat) (entries : List Json) :
    ((getDispatchAux bus idx entries).1).countP isNullKV = (getDispatchAux bus idx entries).2.1 := by
  induction entries generalizing idx with
  | nil => simp [getDispatchAux]
  | cons e rest ih =>
    simp [getDispatchAux, List.countP_append, processGetEntry_failures, ih]

/-- Successes plus failures account for every sub-result of a GET. -/
theorem getDispatch_success_add_failures (bus : Adapter) (idx : Nat) (entries : List Json) :
    resultSuccesses (getDispatchAux bus idx entries).1 + (getDispatchAux bus idx entries).2.1 =
      ((getDispatchAux bus idx entries).1).length := by
  rw [← getDispatchAux_failures]
  exact countP_not_add_countP _ _

/-- Claim C1 counterexample.  The GET request with the single wildcard
entry Device.W. expands to two children and both typed gets fail: the
dispatch yields s = 0 successes and f = 2 failures over n = 1 entries,
so s + f differs from n, and the response status is 207, not the 500 the
claim requires for s = 0 and f at least 1. -/
theorem C1_counterexample :
    jget (protocol_handle_request adapterExpandTwo
        (some (Json.obj [("op", Json.str "GET"),
                         ("params", Json.arr [Json.str "Device.W."])]))).1 "status"
      = some (Json.num 207) ∧
    resultSuccesses (getDispatchAux adapterExpandTwo 0 [Json.str "Device.W."]).1 = 0 ∧
    (getDispatchAux adapterExpandTwo 0 [Json.str "Device.W."]).2.1 = 2 ∧
    (0 + 2 ≠ 1) ∧ (207 : Int) ≠ 500 := by
  refine ⟨rfl, rfl, rfl, by decide, by decide⟩

/-- Claim C1 (amended): for every GET dispatched by the translator with
s successful and f failed sub-results, s + f equals the number of
sub-results in the results object (which equals the number of request
entries only in the absence of wildcard expansion); the status is 200
iff f = 0 (an empty result set included), 207 iff f is at least 1, and
500 is never returned. -/
theorem C1_amended (bus : Adapter) (entries : List Json) :
    (protocol_handle_request bus
        (some (Json.obj [("op", Json.str "GET"), ("params", Json.arr entries)]))).1 =
      protocol_build_get_response none
        (if (getDispatchAux bus 0 entries).2.1 = 0 then 200 else 207)
        (getDispatchAux bus 0 entries).1 ∧
    resultSuccesses (getDispatchAux bus 0 entries).1 + (getDispatchAux bus 0 entries).2.1 =
      ((getDispatchAux bus 0 entries).1).length ∧
    ((if (getDispatchAux bus 0 entries).2.1 = 0 then (200 : Int) else 207) = 200 ↔
      (getDispatchAux bus 0 entries).2.1 = 0) ∧
    ((if (getDispatchAux bus 0 entries).2.1 = 0 then (200 : Int) else 207) = 207 ↔
      1 ≤ (getDispatchAux bus 0 entries).2.1) ∧
    (if (getDispatchAux bus 0 entries).2.1 = 0 then (200 : Int) else 207) ≠ 500 := by
  refine ⟨rfl, getDispatch_success_add_failures bus 0 entries, ?_, ?_, ?_⟩
  · by_cases h : (getDispatchAux bus 0 entries).2.1 = 0 <;> simp [h]
  · by_cases h : (getDispatchAux bus 0 entries).2.1 = 0
    · simp [h]
    · simp [h]
      omega
  · by_cases h : (getDispatchAux bus 0 entries).2.1 = 0 <;> simp [h]

/-- Claim C2: the code violates the invariant.  In an atomic transaction
whose first parameter succeeds and whose second fails, the apply loop
aborts and assigns Failure, but the classification block that follows
recomputes the overall status from the counters (one success, one
failure) and overwrites it with Partial.  The claim, the specification
and the aborting branch itself all say such a transaction completes as
Failure, never Partial. -/
theorem C2_code_bug :
    webconfig_execute_transaction true [true, false] = WebconfigStatus.partialStatus ∧
    webconfig_execute_transaction true [true, false] ≠ WebconfigStatus.failure := by
  refine ⟨rfl, by decide⟩

/-! ## Every response carries a numeric status (claims C10, C3, C4) -/

theorem jget_status_set (id : Option String) (st : Int) (msg : Option String) :
    jget (protocol_build_set_response id st msg) "status" = some (Json.num st) := by
  cases id <;> cases msg <;> rfl

theorem jget_status_get (id : Option String) (st : Int) (results : List (String × Json)) :
    jget (protocol_build_get_response id st results) "status" = some (Json.num st) := by
  cases id <;> rfl

theorem jget_status_table (id : Option String) (st : Int) (row : Option String) :
    jget (protocol_build_table_response id st row) "status" = some (Json.num st) := by
  cases id <;> cases row <;> rfl

theorem jget_status_attrs (id : Option String) (st : Int) (attrs : Json) :
    jget (protocol_build_attributes_response id st attrs) "status" = some (Json.num st) := by
  cases id <;> rfl

theorem protocol_response_has_status (bus : Adapter) (root : Option Json) :
    ∃ n, jget (protocol_handle_request bus root).1 "status" = some (Json.num n) := by
  unfold protocol_handle_request
  repeat' split
  all_goals dsimp only
  all_goals
    first
      | exact ⟨_, jget_status_set _ _ _⟩
      | exact ⟨_, jget_status_get _ _ _⟩
      | exact ⟨_, jget_status_table _ _ _⟩
      | exact ⟨_, jget_status_attrs _ _ _⟩

/-- Claim C10: every input to the request handler, a null pointer, a
non-object value, an object without a string op, and an object with an
unrecognized op string included, yields a response with a numeric status
field; in each malformed case the status is 400 and no parambus
operation is performed. -/
theorem C10_theorem :
    (∀ (bus : Adapter) (root : Option Json),
      ∃ n, jget (protocol_handle_request bus root).1 "status" = some (Json.num n)) ∧
    (∀ bus : Adapter,
      jget (protocol_handle_request bus none).1 "status" = some (Json.num 400) ∧
      (protocol_handle_request bus none).2 = []) ∧
    (∀ (bus : Adapter) (j : Json), j.isObj = false →
      jget (protocol_handle_request bus (some j)).1 "status" = some (Json.num 400) ∧
      (protocol_handle_request bus (some j)).2 = []) ∧
    (∀ (bus : Adapter) (fields : List (String × Json)),
      (∀ s, jget (Json.obj fields) "op" ≠ some (Json.str s)) →
      jget (protocol_handle_request bus (some (Json.obj fields))).1 "status" = some (Json.num 400) ∧
      (protocol_handle_request bus (some (Json.obj fields))).2 = []) ∧
    (∀ (bus : Adapter) (fields : List (String × Json)) (opStr : String),
      jget (Json.obj fields) "op" = some (Json.str opStr) →
      parse_operation_type (some opStr) = OperationType.opUnknown →
      jget (protocol_handle_request bus (some (Json.obj fields))).1 "status" = some (Json.num 400) ∧
      (protocol_handle_request bus (some (Json.obj fields))).2 = []) := by
  refine ⟨protocol_response_has_status, ?_, ?_, ?_, ?_⟩
  · intro bus
    exact ⟨rfl, rfl⟩
  · intro bus j hobj
    cases j <;> first
      | exact ⟨rfl, rfl⟩
      | simp [Json.isObj] at hobj
  · intro bus fields hop
    unfold protocol_handle_request
    dsimp only [Json.isObj]
    rw [if_neg (by simp)]
    cases h : jget (Json.obj fields) "op" with
    | none =>
      dsimp only
      exact ⟨jget_status_set _ _ _, rfl⟩
    | some j =>
      cases j with
      | str s => exact absurd h (hop s)
      | null =>
        dsimp only
        exact ⟨jget_status_set _ _ _, rfl⟩
      | jbool b =>
        dsimp only
        exact ⟨jget_status_set _ _ _, rfl⟩
      | num n =>
        dsimp only
        exact ⟨jget_status_set _ _ _, rfl⟩
      | arr xs =>
        dsimp only
        exact ⟨jget_status_set _ _ _, rfl⟩
      | obj fs =>
        dsimp only
        exact ⟨jget_status_set _ _ _, rfl⟩
  · intro bus fields opStr hop hparse
    unfold protocol_handle_request
    dsimp only [Json.isObj]
    rw [if_neg (by simp)]
    rw [hop]
    dsimp only
    rw [hparse]
    dsimp only
    exact ⟨jget_status_set _ _ _, rfl⟩

/-- Claim C10 witness: the universal statement applied at the concrete
malformed inputs of the claim. -/
theorem C10_theorem_witness :
    (jget (protocol_handle_request adapterOkAll (some (Json.obj [("x", Json.num 1)]))).1 "status"
        = some (Json.num 400) ∧
      (protocol_handle_request adapterOkAll (some (Json.obj [("x", Json.num 1)]))).2 = []) ∧
    (jget (protocol_handle_request adapterOkAll
          (some (Json.obj [("op", Json.str "FROB")]))).1 "status" = some (Json.num 400) ∧
      (protocol_handle_request adapterOkAll (some (Json.obj [("op", Json.str "FROB")]))).2 = []) ∧
    (jget (protocol_handle_request adapterOkAll (some (Json.str "x"))).1 "status"
        = some (Json.num 400) ∧
      (protocol_handle_request adapterOkAll (some (Json.str "x"))).2 = []) := by
  refine ⟨?_, ?_, ?_⟩
  · exact C10_theorem.2.2.2.1 adapterOkAll [("x", Json.num 1)]
      (by intro s; simp [jget, List.lookup])
  · exact C10_theorem.2.2.2.2 adapterOkAll [("op", Json.str "FROB")] "FROB" rfl rfl
  · exact C10_theorem.2.2.1 adapterOkAll (Json.str "x") rfl

/-! ## Claim C4 : authorization is never consulted by the translator -/

theorem wildcardChildren_no_auth (bus : Adapter) (ns : List String) (r : String) :
    Event.authCheck r ∉ (wildcardChildren bus ns).2.2 := by
  induction ns with
  | nil => simp [wildcardChildren]
  | cons nm rest ih =>
    simp only [wildcardChildren]
    cases h : bus.getTyped nm with
    | ok vt =>
      obtain ⟨v, t⟩ := vt
      simp [ih]
    | error e => simp [ih]

theorem processGetEntry_no_auth (bus : Adapter) (idx : Nat) (entry : Json) (r : String) :
    Event.authCheck r ∉ (processGetEntry bus idx entry).2.2 := by
  cases entry with
  | str p =>
    simp only [processGetEntry]
    by_cases hdot : ends_with_char p dotChar = true
    · simp only [hdot, if_true]
      cases h : bus.expand p with
      | ok lst =>
        by_cases hl : lst.isEmpty
        · simp [hl]
        · simp [hl, wildcardChildren_no_auth]
      | error e => simp
    · simp only [hdot, if_false]
      cases h : bus.getTyped p with
      | ok vt =>
        obtain ⟨v, t⟩ := vt
        simp
      | error e => simp
  | null => simp [processGetEntry]
  | jbool b => simp [processGetEntry]
  | num n => simp [processGetEntry]
  | arr xs => simp [processGetEntry]
  | obj fs => simp [processGetEntry]

theorem getDispatchAux_no_auth (bus : Adapter) (idx : Nat) (entries : List Json) (r : String) :
    Event.authCheck r ∉ (getDispatchAux bus idx entries).2.2 := by
  induction entries generalizing idx with
  | nil => simp [getDispatchAux]
  | cons e rest ih =>
    simp [getDispatchAux, processGetEntry_no_auth, ih]

theorem protocol_no_auth (bus : Adapter) (root : Option Json) (r : String) :
    Event.authCheck r ∉ (protocol_handle_request bus root).2 := by
  unfold protocol_handle_request
  repeat' split
  all_goals dsimp only
  all_goals simp [getDispatchAux_no_auth]

/-- The single-parameter GET request against Device.X. -/
def reqDeviceX : Json :=
  Json.obj [("op", Json.str "GET"), ("params", Json.arr [Json.str "Device.X"])]

/-- Claim C4 counterexample.  Dispatching a GET performs the parambus
get without any prior authorization check: the trace of the request is
exactly one bus get and contains no auth check, and the request
succeeds with 200, so no denial path was consulted. -/
theorem C4_counterexample :
    (protocol_handle_request adapterOkAll (some reqDeviceX)).2 = [Event.busGet "Device.X"] ∧
    (∀ r, Event.authCheck r ∉ (protocol_handle_request adapterOkAll (some reqDeviceX)).2) ∧
    jget (protocol_handle_request adapterOkAll (some reqDeviceX)).1 "status" = some (Json.num 200) := by
  refine ⟨rfl, ?_, rfl⟩
  intro r
  exact protocol_no_auth adapterOkAll (some reqDeviceX) r

/-- Claim C4 (amended): the translator performs no authorization check
at all: no trace of any request contains an auth-check invocation.  The
auth_check_acl function of auth.c does deny access (returns 0) when the
first matching ACL rule requires authentication and the context is
unauthenticated, and when no rule matches an unauthenticated context,
but the translator never invokes it, so a denial never produces a 403
response. -/
theorem C4_amended :
    (∀ (bus : Adapter) (root : Option Json) (r : String),
      Event.authCheck r ∉ (protocol_handle_request bus root).2) ∧
    (∀ (acl : List AuthAclEntry) (resource : String) (ctx : AuthContext) (entry : AuthAclEntry),
      acl.find? (fun e => acl_pattern_matches e.resource_pattern resource) = some entry →
      entry.require_authentication = true → ctx.authenticated = false →
      auth_check_acl acl resource ctx = 0) ∧
    (∀ (acl : List AuthAclEntry) (resource : String) (ctx : AuthContext),
      acl.find? (fun e => acl_pattern_matches e.resource_pattern resource) = none →
      ctx.authenticated = false →
      auth_check_acl acl resource ctx = 0) := by
  refine ⟨protocol_no_auth, ?_, ?_⟩
  · intro acl resource ctx entry hfind hra hauth
    unfold auth_check_acl
    rw [hfind]
    simp [hra, hauth]
  · intro acl resource ctx hfind hauth
    unfold auth_check_acl
    rw [hfind]
    simp [hauth]

/-- The default ACL installed by auth_setup_default_acl (each entry is
added with require_authentication set). -/
def default_acl : List AuthAclEntry :=
  [ { resource_pattern := "Device.*", required_permission := 3, minimum_role := 1,
      require_authentication := true },
    { resource_pattern := "X_RDKCENTRAL-COM_*", required_permission := 7, minimum_role := 3,
      require_authentication := true },
    { resource_pattern := "Device.DeviceInfo.*", required_permission := 1, minimum_role := 1,
      require_authentication := true },
    { resource_pattern := "Device.WiFi.*", required_permission := 3, minimum_role := 2,
      require_authentication := true },
    { resource_pattern := "Device.Ethernet.*", required_permission := 3, minimum_role := 2,
      require_authentication := true },
    { resource_pattern := "Device.ManagementServer.*", required_permission := 7, minimum_role := 3,
      require_authentication := true },
    { resource_pattern := "Device.UserInterface.*", required_permission := 7, minimum_role := 3,
      require_authentication := true } ]

/-- Claim C4 witness: the amended statement at the concrete GET above
and at the default ACL with an unauthenticated context. -/
theorem C4_amended_witness :
    Event.authCheck "Device.X" ∉
      (protocol_handle_request adapterOkAll (some reqDeviceX)).2 ∧
    auth_check_acl default_acl "Device.X"
      { authenticated := false, role := 0, permissions := 0 } = 0 := by
  constructor
  · exact C4_amended.1 adapterOkAll (some reqDeviceX) "Device.X"
  · exact C4_amended.2.1 default_acl "Device.X"
      { authenticated := false, role := 0, permissions := 0 }
      { resource_pattern := "Device.*", required_permission := 3, minimum_role := 1,
        require_authentication := true }
      rfl rfl rfl

/-! ## Claim C3 : TEST_AND_SET -/

/-- The TEST_AND_SET request of the specification scenario. -/
def reqTAS : Json :=
  Json.obj [("op", Json.str "TEST_AND_SET"), ("param", Json.str "Device.Foo"),
            ("oldValue", Json.str "B"), ("newValue", Json.str "C"), ("dataType", Json.num 0)]

/-- A raw bus whose current value for every parameter is the string A
and whose set always succeeds. -/
def rbusCurrentA : Rbus :=
  { get := fun _ => .ok "A", set := fun _ _ => 0 }

/-- Claim C3 counterexample.  The translator does not recognize the
TEST_AND_SET operation: the fully formed TEST_AND_SET request receives
status 400 (unsupported op) with no adapter operation performed, not the
412 dispatch through the adapter compare-and-set that the claim
describes. -/
theorem C3_counterexample :
    jget (protocol_handle_request adapterOkAll (some reqTAS)).1 "status" = some (Json.num 400) ∧
    (protocol_handle_request adapterOkAll (some reqTAS)).2 = [] ∧
    (400 : Int) ≠ 412 := by
  refine ⟨rfl, rfl, by decide⟩

/-- Claim C3 (amended): TEST_AND_SET is not a recognized operation of
the translator, which answers 400 with no adapter call; the adapter
function rbus_adapter_test_and_set itself, when invoked directly, reads
the current value, compares it to oldValue under the string encoding,
and on mismatch returns the precondition-failed code -10 (mapped to 412
by map_status) without performing any set. -/
theorem C3_amended :
    (∀ (bus : Adapter) (fields : List (String × Json)),
      jget (Json.obj fields) "op" = some (Json.str "TEST_AND_SET") →
      jget (protocol_handle_request bus (some (Json.obj fields))).1 "status"
          = some (Json.num 400) ∧
      (protocol_handle_request bus (some (Json.obj fields))).2 = []) ∧
    (∀ (rb : Rbus) (tas : TestAndSetReq) (current : String),
      rb.get tas.param = .ok current → current ≠ tas.oldValue →
      (rbus_adapter_test_and_set rb tas).1 = -10 ∧
      ∀ n v, Event.busSet n v ∉ (rbus_adapter_test_and_set rb tas).2) ∧
    map_status (-10) = 412 := by
  refine ⟨?_, ?_, by decide⟩
  · intro bus fields hop
    unfold protocol_handle_request
    dsimp only [Json.isObj]
    rw [if_neg (by simp)]
    rw [hop]
    dsimp only
    have hparse : parse_operation_type (some "TEST_AND_SET") = OperationType.opUnknown := rfl
    rw [hparse]
    dsimp only
    exact ⟨jget_status_set _ _ _, rfl⟩
  · intro rb tas current hget hne
    unfold rbus_adapter_test_and_set
    rw [hget]
    simp [hne]

/-- Claim C3 witness: the amended statement at the concrete TEST_AND_SET
request and at a bus whose current value A differs from oldValue B. -/
theorem C3_amended_witness :
    jget (protocol_handle_request adapterOkAll (some reqTAS)).1 "status" = some (Json.num 400) ∧
    (rbus_adapter_test_and_set rbusCurrentA
      { param := "Device.Foo", oldValue := "B", newValue := "C", dataType := 0 }).1 = -10 := by
  constructor
  · exact (C3_amended.1 adapterOkAll
      [("op", Json.str "TEST_AND_SET"), ("param", Json.str "Device.Foo"),
       ("oldValue", Json.str "B"), ("newValue", Json.str "C"), ("dataType", Json.num 0)] rfl).1
  · exact (C3_amended.2.1 rbusCurrentA
      { param := "Device.Foo", oldValue := "B", newValue := "C", dataType := 0 }
      "A" rfl (by decide)).1

/-! ## Claim C5 : cache eviction on insert at capacity -/

theorem insertByPriority_perm (now : Int) (e : CEntry) (l : List CEntry) :
    (insertByPriority now e l).Perm (e :: l) := by
  induction l with
  | nil => simp [insertByPriority]
  | cons c rest ih =>
    simp only [insertByPriority]
    by_cases h : evictionPriority now e ≤ evictionPriority now c
    · rw [if_pos h]
    · rw [if_neg h]
      exact (ih.cons c).trans (List.Perm.swap e c rest)

theorem sortCandidates_perm (now : Int) (l : List CEntry) :
    (sortCandidates now l).Perm l := by
  induction l with
  | nil => simp [sortCandidates]
  | cons e rest ih =>
    exact (insertByPriority_perm now e (sortCandidates now rest)).trans (ih.cons e)

theorem sortCandidates_any (now : Int) (l : List CEntry) (p : CEntry → Bool) :
    (sortCandidates now l).any p = l.any p := by
  have h := sortCandidates_perm now l
  cases hl : l.any p
  · simp only [List.any_eq_false] at hl ⊢
    intro x hx
    exact hl x (h.mem_iff.mp hx)
  · simp only [List.any_eq_true] at hl ⊢
    obtain ⟨x, hx, hpx⟩ := hl
    exact ⟨x, h.mem_iff.mpr hx, hpx⟩

theorem filter_not_take_keys (l : List CEntry) (k : Nat)
    (hnd : (l.map CEntry.key).Nodup) :
    (l.filter fun e => ! (l.take k).any (fun c => c.key = e.key)) = l.drop k := by
  induction l generalizing k with
  | nil => simp
  | cons x xs ih =>
    rw [List.map_cons, List.nodup_cons] at hnd
    obtain ⟨hx1, hnd2⟩ := hnd
    cases k with
    | zero => simp
    | succ k =>
      simp only [List.take_succ_cons, List.drop_succ_cons, List.filter_cons]
      have hcond : (! (x :: xs.take k).any (fun c => decide (c.key = x.key))) = false := by
        simp
      rw [hcond]
      simp only [Bool.false_eq_true, if_false]
      have hcongr : ∀ e ∈ xs,
          (! (x :: xs.take k).any (fun c => decide (c.key = e.key))) =
          (! (xs.take k).any (fun c => decide (c.key = e.key))) := by
        intro e he
        have hne : ¬ x.key = e.key := by
          intro h
          exact hx1 (h ▸ List.mem_map_of_mem CEntry.key he)
        simp [List.any_cons, hne]
      rw [List.filter_congr hcongr]
      exact ih k hnd2

theorem cache_evict_lru_spec (now : Int) (es : List CEntry) (maxEv : Nat)
    (hnd : (es.map CEntry.key).Nodup) :
    (cache_evict_lru now es maxEv).1 = es.drop maxEv ∧
    (cache_evict_lru now es maxEv).2 = min maxEv es.length := by
  unfold cache_evict_lru
  by_cases h : maxEv = 0
  · subst h; simp
  · simp only [h, if_false]
    constructor
    · have hcongr : ∀ e ∈ es,
          (! (sortCandidates now (es.take maxEv)).any (fun c => decide (c.key = e.key))) =
          (! (es.take maxEv).any (fun c => decide (c.key = e.key))) := by
        intro e _
        rw [sortCandidates_any]
      rw [List.filter_congr hcongr]
      exact filter_not_take_keys es maxEv hnd
    · rw [(sortCandidates_perm now (es.take maxEv)).length_eq, List.length_take]

/-- Claim C5 (amended): when a new key is inserted while the cache holds
at least max_entries entries, the code evicts max_entries / 10 entries
(integer division, hence zero whenever max_entries is below 10), and the
evicted entries are the first max_entries / 10 entries in iteration
order: the candidate collection stops after that many entries and every
candidate is evicted, so the priority sort never changes which entries
go, only the order of their removal. -/
theorem C5_amended (now : Int) (cfg : CacheConfig) (es : List CEntry) (stats : CacheStats)
    (key value : String) (dataType ttl : Int)
    (hnew : cache_find es key = none)
    (hfull : cfg.max_entries ≤ es.length)
    (hnd : (es.map CEntry.key).Nodup) :
    (cache_set now cfg es stats key value dataType ttl).1 =
      { key := key, value := value, dataType := dataType, timestamp := now,
        ttl := if ttl > 0 then ttl else cfg.default_ttl, access_count := 0 }
        :: es.drop (cfg.max_entries / 10) ∧
    (cache_set now cfg es stats key value dataType ttl).2.cache_evictions =
      stats.cache_evictions + cfg.max_entries / 10 := by
  have hspec := cache_evict_lru_spec now es (cfg.max_entries / 10) hnd
  have hmin : min (cfg.max_entries / 10) es.length = cfg.max_entries / 10 :=
    Nat.min_eq_left (le_trans (Nat.div_le_self _ _) hfull)
  unfold cache_set
  rw [hnew]
  simp only [Option.isSome_none, Bool.false_eq_true, if_false]
  rw [if_pos hfull]
  constructor
  · rw [hspec.1]
  · rw [hspec.2, hmin]

/-- The all-zero statistics record. -/
def statsZero : CacheStats :=
  { cache_hits := 0, cache_misses := 0, cache_evictions := 0, cache_timeouts := 0 }

/-- A cache configured for at most two entries. -/
def cfgSmall : CacheConfig := { max_entries := 2, default_ttl := 300, enable_stats := true }

def entryK1 : CEntry :=
  { key := "K1", value := "a", dataType := 0, timestamp := 0, ttl := 300, access_count := 5 }

def entryK2 : CEntry :=
  { key := "K2", value := "b", dataType := 0, timestamp := 0, ttl := 300, access_count := 0 }

/-- Claim C5 counterexample.  Inserting a third key into a cache at its
capacity of two evicts max_entries / 10 = 0 entries, not the ceiling
ceil(2 / 10) = 1 the claim requires: the eviction counter stays 0 and
all three entries are present after the insert. -/
theorem C5_counterexample :
    (cache_set 100 cfgSmall [entryK1, entryK2] statsZero "K3" "c" 0 0).2.cache_evictions = 0 ∧
    (cache_set 100 cfgSmall [entryK1, entryK2] statsZero "K3" "c" 0 0).1.length = 3 ∧
    ceil_div10 cfgSmall.max_entries = 1 ∧ (0 : Nat) ≠ 1 := by
  refine ⟨rfl, rfl, rfl, by decide⟩

/-- A cache configured for at most ten entries. -/
def cfgTen : CacheConfig := { max_entries := 10, default_ttl := 300, enable_stats := true }

/-- Ten distinct entries; the first in iteration order has the highest
eviction priority, yet it is the one evicted. -/
def tenEntries : List CEntry :=
  [ { key := "A", value := "0", dataType := 0, timestamp := 0, ttl := 300, access_count := 9 },
    { key := "B", value := "1", dataType := 0, timestamp := 0, ttl := 300, access_count := 0 },
    { key := "C", value := "2", dataType := 0, timestamp := 0, ttl := 300, access_count := 0 },
    { key := "D", value := "3", dataType := 0, timestamp := 0, ttl := 300, access_count := 0 },
    { key := "E", value := "4", dataType := 0, timestamp := 0, ttl := 300, access_count := 0 },
    { key := "F", value := "5", dataType := 0, timestamp := 0, ttl := 300, access_count := 0 },
    { key := "G", value := "6", dataType := 0, timestamp := 0, ttl := 300, access_count := 0 },
    { key := "H", value := "7", dataType := 0, timestamp := 0, ttl := 300, access_count := 0 },
    { key := "I", value := "8", dataType := 0, timestamp := 0, ttl := 300, access_count := 0 },
    { key := "J", value := "9", dataType := 0, timestamp := 0, ttl := 300, access_count := 0 } ]

/-- Claim C5 witness: the amended statement at a concrete full cache of
ten entries; one entry (the first in iteration order, despite its
maximal priority) is evicted before the insert. -/
theorem C5_amended_witness :
    (cache_set 0 cfgTen tenEntries statsZero "Z" "v" 0 0).1 =
      { key := "Z", value := "v", dataType := 0, timestamp := 0, ttl := 300,
        access_count := 0 } :: tenEntries.drop 1 ∧
    (cache_set 0 cfgTen tenEntries statsZero "Z" "v" 0 0).2.cache_evictions = 1 := by
  have h := C5_amended 0 cfgTen tenEntries statsZero "Z" "v" 0 0 rfl (by decide) (by decide)
  exact ⟨h.1, h.2⟩

/-! ## Claim C7 : set invalidates the cache entry before success -/

theorem cache_find_remove_first (es : List CEntry) (k : String)
    (hnd : (es.map CEntry.key).Nodup) :
    cache_find (cache_remove_first es k) k = none := by
  induction es with
  | nil => rfl
  | cons x xs ih =>
    rw [List.map_cons, List.nodup_cons] at hnd
    obtain ⟨hx1, hnd2⟩ := hnd
    simp only [cache_remove_first]
    by_cases h : x.key = k
    · rw [if_pos h]
      unfold cache_find
      rw [List.find?_eq_none]
      intro e he
      simp only [decide_eq_true_eq]
      intro hek
      exact hx1 ((h.trans hek.symm) ▸ List.mem_map_of_mem CEntry.key he)
    · rw [if_neg h]
      unfold cache_find
      rw [List.find?_cons_of_neg _ (by simpa using h)]
      exact ih hnd2

theorem cache_find_delete (es : List CEntry) (k : String)
    (hnd : (es.map CEntry.key).Nodup) :
    cache_find (cache_delete es k).1 k = none := by
  unfold cache_delete
  by_cases h : (cache_find es k).isSome
  · rw [if_pos h]
    exact cache_find_remove_first es k hnd
  · rw [if_neg h]
    exact Option.not_isSome_iff_eq_none.mp h

/-- Claim C7: for every adapter set that returns success, the cache
entry for the parameter has been invalidated (deleted) in the state the
call hands back together with the success code. -/
theorem C7_theorem (rb : Rbus) (cache : List CEntry) (param value : String)
    (hnd : (cache.map CEntry.key).Nodup) :
    (rbus_adapter_set rb cache param value).1 = 0 →
    cache_find (rbus_adapter_set rb cache param value).2 param = none := by
  unfold rbus_adapter_set
  by_cases h : rb.set param value ≠ 0
  · rw [if_pos h]
    intro habs
    simp at habs
  · rw [if_neg h]
    intro _
    exact cache_find_delete cache param hnd

def entryFoo : CEntry :=
  { key := "Device.Foo", value := "A", dataType := 0, timestamp := 0, ttl := 300,
    access_count := 0 }

/-- Claim C7 witness: a concrete successful set deletes the cached
entry of the parameter. -/
theorem C7_theorem_witness :
    cache_find (rbus_adapter_set rbusCurrentA [entryFoo] "Device.Foo" "x").2
      "Device.Foo" = none :=
  C7_theorem rbusCurrentA [entryFoo] "Device.Foo" "x" (by decide) rfl

/-! ## Claim C8 : expired entries on get -/

/-- A cache with statistics collection disabled. -/
def cfgNoStats : CacheConfig := { max_entries := 1000, default_ttl := 300, enable_stats := false }

/-- A cache with statistics collection enabled. -/
def cfgStats : CacheConfig := { max_entries := 1000, default_ttl := 300, enable_stats := true }

/-- An entry whose ttl of 10 seconds has long passed at time 100. -/
def entryExp : CEntry :=
  { key := "K", value := "V", dataType := 0, timestamp := 0, ttl := 10, access_count := 0 }

/-- Claim C8 counterexample.  With enable_stats unset, a get of a
present but expired entry removes the entry and returns Miss, yet the
timeout and miss counters remain untouched, against the unconditional
increment the claim states. -/
theorem C8_counterexample :
    cache_find [entryExp] "K" = some entryExp ∧
    cache_entry_expired 100 entryExp = true ∧
    (cache_get 100 cfgNoStats [entryExp] statsZero "K").1 = none ∧
    (cache_get 100 cfgNoStats [entryExp] statsZero "K").2.1 = [] ∧
    (cache_get 100 cfgNoStats [entryExp] statsZero "K").2.2 = statsZero := by
  refine ⟨rfl, rfl, rfl, rfl, rfl⟩

/-- Claim C8 (amended): when statistics collection is enabled (the
default configuration), a get of a present but expired entry removes the
entry during the access, increments both the timeout counter and the
miss counter by one, leaves the hit and eviction counters unchanged, and
returns Miss. -/
theorem C8_amended (now : Int) (cfg : CacheConfig) (es : List CEntry) (stats : CacheStats)
    (key : String) (e : CEntry)
    (hfind : cache_find es key = some e)
    (hexp : cache_entry_expired now e = true)
    (hstats : cfg.enable_stats = true)
    (hnd : (es.map CEntry.key).Nodup) :
    (cache_get now cfg es stats key).1 = none ∧
    (cache_get now cfg es stats key).2.1 = cache_remove_first es key ∧
    cache_find (cache_get now cfg es stats key).2.1 key = none ∧
    (cache_get now cfg es stats key).2.2.cache_timeouts = stats.cache_timeouts + 1 ∧
    (cache_get now cfg es stats key).2.2.cache_misses = stats.cache_misses + 1 ∧
    (cache_get now cfg es stats key).2.2.cache_hits = stats.cache_hits ∧
    (cache_get now cfg es stats key).2.2.cache_evictions = stats.cache_evictions := by
  unfold cache_get
  rw [hfind]
  simp [hexp, hstats, cache_find_remove_first es key hnd]

/-- Claim C8 witness: the amended statement at a concrete expired entry
under the stats-enabled configuration. -/
theorem C8_amended_witness :
    (cache_get 100 cfgStats [entryExp] statsZero "K").1 = none ∧
    (cache_get 100 cfgStats [entryExp] statsZero "K").2.2.cache_timeouts = 1 ∧
    (cache_get 100 cfgStats [entryExp] statsZero "K").2.2.cache_misses = 1 := by
  have h := C8_amended 100 cfgStats [entryExp] statsZero "K" entryExp rfl rfl rfl (by decide)
  exact ⟨h.1, h.2.2.2.1, h.2.2.2.2.1⟩

/-! ## Claim C6 : subscription refcounting -/

theorem subscribe_step_inv (ok : Bool) (st : SubState) (e : String)
    (hinv : st.g_sub_count = st.busSubs.length) :
    (rbus_adapter_subscribe ok st e).2.g_sub_count =
      (rbus_adapter_subscribe ok st e).2.busSubs.length := by
  cases ok <;> simp [rbus_adapter_subscribe, hinv]

theorem unsubscribe_step_inv (ok : Bool) (st : SubState) (e : String)
    (hinv : st.g_sub_count = st.busSubs.length)
    (hmem : ok = true → e ∈ st.busSubs) :
    (rbus_adapter_unsubscribe ok st e).2.g_sub_count =
      (rbus_adapter_unsubscribe ok st e).2.busSubs.length := by
  cases ok
  · simpa [rbus_adapter_unsubscribe] using hinv
  · have hm := hmem rfl
    have hlen : 0 < st.busSubs.length := List.length_pos.mpr (List.ne_nil_of_mem hm)
    simp only [rbus_adapter_unsubscribe, if_true]
    rw [List.length_erase_of_mem hm, hinv, if_pos (hinv ▸ hlen)]

/-- The empty subscription state. -/
def subInit : SubState := { busSubs := [], g_sub_count := 0 }

/-- Subscribe to a, subscribe to b, unsubscribe a; the bus accepts all
three calls. -/
def opsTwoSubsOneUnsub : List SubOp :=
  [SubOp.sub "a" true, SubOp.sub "b" true, SubOp.unsub "a" true]

/-- Claim C6 counterexample.  After subscribing to a and b and
unsubscribing a, the parambus holds no active subscription for a, yet
the only refcount the process keeps, the single global g_sub_count, is
1; no per-name refcount exists in the adapter state, so the stated
per-name iff fails for the name a. -/
theorem C6_counterexample :
    (runSubOps subInit opsTwoSubsOneUnsub).busSubs = ["b"] ∧
    "a" ∉ (runSubOps subInit opsTwoSubsOneUnsub).busSubs ∧
    (runSubOps subInit opsTwoSubsOneUnsub).g_sub_count = 1 ∧
    1 ≤ (runSubOps subInit opsTwoSubsOneUnsub).g_sub_count := by
  refine ⟨rfl, by decide, rfl, by decide⟩

/-- Claim C6 (amended): the adapter keeps a single global counter, not a
per-name refcount: in every run in which the bus accepts only
unsubscribes of currently subscribed names, g_sub_count equals the total
number of active bus subscriptions over all names together; nothing in
the process prevents two active subscriptions for the same name or
tracks counts per name. -/
theorem C6_amended (st : SubState) (ops : List SubOp)
    (hinv : st.g_sub_count = st.busSubs.length)
    (hwb : wellBehavedOps st ops = true) :
    (runSubOps st ops).g_sub_count = (runSubOps st ops).busSubs.length := by
  induction ops generalizing st with
  | nil => simpa [runSubOps] using hinv
  | cons op rest ih =>
    cases op with
    | sub e ok =>
      simp only [runSubOps]
      simp only [wellBehavedOps] at hwb
      exact ih _ (subscribe_step_inv ok st e hinv) hwb
    | unsub e ok =>
      simp only [runSubOps]
      simp only [wellBehavedOps, Bool.and_eq_true] at hwb
      refine ih _ (unsubscribe_step_inv ok st e hinv ?_) hwb.2
      intro hok
      subst hok
      have hc := hwb.1
      simpa using hc

/-- Claim C6 witness: the amended statement at the concrete run above:
one active subscription, counter one. -/
theorem C6_amended_witness :
    (runSubOps subInit opsTwoSubsOneUnsub).g_sub_count =
      (runSubOps subInit opsTwoSubsOneUnsub).busSubs.length :=
  C6_amended subInit opsTwoSubsOneUnsub rfl (by decide)

/-! ## Claim C9 : webpa grouped egress shaping -/

theorem jget_results_get (id : Option String) (st : Int) (results : List (String × Json)) :
    jget (protocol_build_get_response id st results) "results" = some (Json.obj results) := by
  cases id <;> rfl

/-- The original webpa GET whose only wildcard entry is a star pattern
(no trailing-dot group prefix). -/
def reqStarT : Json :=
  Json.obj [("op", Json.str "GET"), ("params", Json.arr [Json.str "Device.T.*"])]

/-- The internal results of the expanded star query: one child. -/
def rsStarT : List (String × Json) :=
  [("Device.T.1.X", Json.obj [("v", Json.str "1"), ("t", Json.num 1)])]

/-- Claim C9 counterexample.  The original request carries the single
wildcard entry Device.T.* (a star pattern), so grouped mode applies, but
the grouped name is the literal fallback string wildcard, not the
comma-joined list of the wildcard prefixes of the request, which would
be Device.T.* itself. -/
theorem C9_counterexample :
    is_wildcard_query_present (some reqStarT) = true ∧
    jget (convert_internal_to_webpa_ext
        (protocol_build_get_response none 200 rsStarT) (some reqStarT)) "parameters" =
      some (Json.arr [Json.obj
        [("name", Json.str "wildcard"),
         ("value", Json.arr [Json.obj
           [("name", Json.str "Device.T.1.X"), ("value", Json.str "1"),
            ("dataType", Json.num 1)]]),
         ("parameterCount", Json.num 1),
         ("message", Json.str "Success"),
         ("dataType", Json.num 11)]]) ∧
    "wildcard" ≠ "Device.T.*" := by
  refine ⟨rfl, rfl, by decide⟩

/-- Claim C9 (amended): for every webpa GET whose params contain at
least one wildcard entry, the shaped payload holds a single
parameters[0] object whose name is the comma-joined list of the
trailing-dot wildcard prefixes, or the literal string wildcard when the
only wildcards are star patterns; whose dataType is 11; whose
parameterCount equals the number of entries of the internal results
object (failed null sub-results and non-wildcard entries included);
whose message is Success when the status is 200 or 207 and Failure
otherwise; and whose value is the array of per-child name, value and
dataType objects. -/
theorem C9_amended (idOpt : Option String) (status : Int) (rs : List (String × Json))
    (orig : Json) (entries : List Json)
    (hparams : jget orig "params" = some (Json.arr entries))
    (hwild : (entries.any fun e =>
        match e with
        | Json.str s => ends_with_char s dotChar || contains_char s starChar
        | _ => false) = true) :
    convert_internal_to_webpa_ext (protocol_build_get_response idOpt status rs) (some orig) =
      Json.obj [("statusCode", Json.num status),
        ("parameters", Json.arr [Json.obj
          [("name", Json.str (if (wildcard_prefixes entries).isEmpty then "wildcard"
                              else String.intercalate "," (wildcard_prefixes entries))),
           ("value", Json.arr (rs.map webpa_child_item)),
           ("parameterCount", Json.num rs.length),
           ("message", Json.str (if status = 200 ∨ status = 207 then "Success" else "Failure")),
           ("dataType", Json.num 11)]])] := by
  unfold convert_internal_to_webpa_ext
  rw [jget_status_get, jget_results_get]
  have hmode : is_wildcard_query_present (some orig) = true := by
    unfold is_wildcard_query_present
    dsimp only
    rw [hparams]
    exact hwild
  have hname : wildcard_name (some orig) =
      (if (wildcard_prefixes entries).isEmpty then "wildcard"
       else String.intercalate "," (wildcard_prefixes entries)) := by
    unfold wildcard_name
    dsimp only
    rw [hparams]
  dsimp only
  rw [hmode]
  simp only [if_true, hname]

/-- Claim C9 witness: the amended statement at the concrete star-pattern
request of the counterexample. -/
theorem C9_amended_witness :
    convert_internal_to_webpa_ext
        (protocol_build_get_response none 200 rsStarT) (some reqStarT) =
      Json.obj [("statusCode", Json.num 200),
        ("parameters", Json.arr [Json.obj
          [("name", Json.str "wildcard"),
           ("value", Json.arr [Json.obj
             [("name", Json.str "Device.T.1.X"), ("value", Json.str "1"),
              ("dataType", Json.num 1)]]),
           ("parameterCount", Json.num 1),
           ("message", Json.str "Success"),
           ("dataType", Json.num 11)]])] :=
  C9_amended none 200 rsStarT reqStarT [Json.str "Device.T.*"] rfl rfl

end P2R
